import Mathlib

/-!
Shallow embedding of the Pearl SDK (Python) and proofs about it.

Source files embedded:
  - pearl_sdk/core/retry_policy.py  (RetryPolicy)
  - pearl_sdk/client.py             (PearlClient, RetryHTTPAdapter.send)
  - pearl_sdk/resources/webhooks.py (Webhooks)
  - pearl_sdk/resources/chat.py     (Chat._parse_chat_completion_response)
  - pearl_sdk/utils/signature_utils.py (key derivation, HMAC-SHA1 signing,
    Base64 round trip, verification)

Modelling conventions:
  - Python `int` is modelled as Lean `Int` (arbitrary precision, possibly
    negative).  The `isinstance(..., int)` guards in the source are vacuous
    under this typing and are noted where they occur.
  - Python `raise ValueError(msg)` is modelled as `Except.error msg`;
    functions that can raise return `Except String _`.
  - Python floats in `calculate_retry_delay` are modelled as exact rationals
    (`ℚ`); the random draw `random.random()` is an explicit parameter
    `j ∈ [0, 1)`.
  - Python byte strings are `List Nat` with every element `< 256`.
-/

/-! ## pearl_sdk/types.py : RetryPolicyConfig -/

/-- `RetryPolicyConfig` dataclass: every field is optional, defaulting to
`None` (here `none`). From pearl_sdk/types.py. -/
structure RetryPolicyConfig where
  enabled : Option Bool := none
  max_retries : Option Int := none
  retry_delay_ms : Option Int := none
  max_retry_delay_ms : Option Int := none
deriving DecidableEq, Repr

/-! ## pearl_sdk/core/retry_policy.py : RetryPolicy -/

/-- The validated state of a constructed `RetryPolicy` object: the four
attributes set by `RetryPolicy.__init__`. -/
structure RetryPolicy where
  enabled : Bool
  max_retries : Int
  retry_delay_ms : Int
  max_retry_delay_ms : Int
deriving DecidableEq, Repr

/-- `RetryPolicy.__init__(config)`.  `config is None` substitutes an empty
`RetryPolicyConfig()`; each `None` field gets its documented default
(enabled=true, max_retries=30, retry_delay_ms=100, max_retry_delay_ms=30000);
then the four validation checks run in source order and raise `ValueError`
(modelled as `Except.error`) on failure.  The `isinstance(..., int)` halves of
the checks are vacuously true since fields are typed `Int` here. -/
def mkRetryPolicy (config : Option RetryPolicyConfig) : Except String RetryPolicy :=
  let config := config.getD {}
  let enabled := config.enabled.getD true
  let max_retries := config.max_retries.getD 30
  let retry_delay_ms := config.retry_delay_ms.getD 100
  let max_retry_delay_ms := config.max_retry_delay_ms.getD 30000
  if max_retries < 0 then
    Except.error "RetryPolicy: max_retries must be a non-negative number if provided."
  else if retry_delay_ms ≤ 0 then
    Except.error "RetryPolicy: retry_delay_ms must be a positive number if provided."
  else if max_retry_delay_ms ≤ 0 then
    Except.error "RetryPolicy: max_retry_delay_ms must be a positive number if provided."
  else if retry_delay_ms > max_retry_delay_ms then
    Except.error "RetryPolicy: retry_delay_ms cannot be greater than max_retry_delay_ms."
  else
    Except.ok { enabled := enabled, max_retries := max_retries,
                retry_delay_ms := retry_delay_ms, max_retry_delay_ms := max_retry_delay_ms }

/-- `RetryPolicy.should_retry(current_retry_count, status_code)`.
`status_code` is `Optional[int]`; in Python `None == 422` is `False`, which the
`Option Int` equality test reproduces. -/
def RetryPolicy.should_retry (p : RetryPolicy) (current_retry_count : Int)
    (status_code : Option Int) : Bool :=
  if p.enabled = false then false
  else
    let is_retryable_status := status_code == some 422
    is_retryable_status && decide (current_retry_count < p.max_retries)

/-- `RetryPolicy.calculate_retry_delay(retry_count)`, with the draw of
`random.random()` made explicit as the parameter `j` (a rational in `[0,1)`;
the source's IEEE floats are modelled as exact rationals, and the literal
`0.1` as `1/10`).  `math.pow(2, retry_count - 1)` is the rational power
`2 ^ (retry_count - 1)` (an `Int` exponent, as in the source `retry_count` is
1-indexed); `math.floor` is `⌊·⌋`. -/
def RetryPolicy.calculate_retry_delay (p : RetryPolicy) (retry_count : Int) (j : ℚ) : Int :=
  let exponential_delay : ℚ := (p.retry_delay_ms : ℚ) * (2 : ℚ) ^ (retry_count - 1)
  let capped_delay : ℚ := min exponential_delay (p.max_retry_delay_ms : ℚ)
  let jitter : ℚ := j * capped_delay * (1 / 10)
  ⌊capped_delay + jitter⌋

/-- helper: a positive `should_retry` answer forces
`current_retry_count < max_retries`. -/
theorem should_retry_imp_lt (p : RetryPolicy) (n : Int) (c : Option Int)
    (h : p.should_retry n c = true) : n < p.max_retries := by
  unfold RetryPolicy.should_retry at h
  split at h
  · exact absurd h (by simp)
  · simp only [Bool.and_eq_true, decide_eq_true_eq] at h
    exact h.2

/-- helper: full characterization of `should_retry`. -/
theorem should_retry_iff (p : RetryPolicy) (n : Int) (c : Option Int) :
    p.should_retry n c = true ↔ (p.enabled = true ∧ c = some 422 ∧ n < p.max_retries) := by
  unfold RetryPolicy.should_retry
  split
  · rename_i he
    simp [he]
  · rename_i he
    simp only [Bool.not_eq_false] at he
    simp [he, beq_iff_eq]

/-- C1: `should_retry(n, c)` is true iff the policy is enabled, `c` is
exactly `422`, and `n < max_retries`; hence it is false for every `c ≠ 422`
(including an absent status code) and whenever the policy is disabled. -/
theorem C1_should_retry_characterization (p : RetryPolicy) (n : Int) (c : Option Int) :
    (p.should_retry n c = true ↔ (p.enabled = true ∧ c = some 422 ∧ n < p.max_retries)) ∧
    (c ≠ some 422 → p.should_retry n c = false) ∧
    (p.enabled = false → p.should_retry n c = false) := by
  refine ⟨should_retry_iff p n c, ?_, ?_⟩
  · intro hc
    cases h : p.should_retry n c
    · rfl
    · exact absurd ((should_retry_iff p n c).mp h).2.1 hc
  · intro he
    cases h : p.should_retry n c
    · rfl
    · rw [((should_retry_iff p n c).mp h).1] at he
      cases he

/-- C1 witness: concrete instantiations — a non-422 status is not retried,
and a disabled policy retries nothing. -/
theorem C1_should_retry_characterization_witness :
    RetryPolicy.should_retry
      { enabled := true, max_retries := 3, retry_delay_ms := 100, max_retry_delay_ms := 30000 }
      7 (some 500) = false ∧
    RetryPolicy.should_retry
      { enabled := false, max_retries := 3, retry_delay_ms := 100, max_retry_delay_ms := 30000 }
      0 (some 422) = false :=
  ⟨(C1_should_retry_characterization
      { enabled := true, max_retries := 3, retry_delay_ms := 100, max_retry_delay_ms := 30000 }
      7 (some 500)).2.1 (by decide),
   (C1_should_retry_characterization
      { enabled := false, max_retries := 3, retry_delay_ms := 100, max_retry_delay_ms := 30000 }
      0 (some 422)).2.2 (by decide)⟩

/-- C7: `RetryPolicy` construction errors exactly when the effective values
(after default substitution) have a negative `max_retries`, a non-positive
`retry_delay_ms` or `max_retry_delay_ms`, or `retry_delay_ms >
max_retry_delay_ms`; on success the four attributes are exactly the effective
values (no clamping), absent fields get the documented defaults, and every
constructed policy satisfies `retry_delay_ms ≤ max_retry_delay_ms`. -/
theorem C7_mkRetryPolicy_validation :
    (∀ cfg : RetryPolicyConfig,
      (∃ msg, mkRetryPolicy (some cfg) = Except.error msg) ↔
        (cfg.max_retries.getD 30 < 0 ∨ cfg.retry_delay_ms.getD 100 ≤ 0 ∨
         cfg.max_retry_delay_ms.getD 30000 ≤ 0 ∨
         cfg.retry_delay_ms.getD 100 > cfg.max_retry_delay_ms.getD 30000)) ∧
    (∀ cfg p, mkRetryPolicy (some cfg) = Except.ok p →
        p = { enabled := cfg.enabled.getD true, max_retries := cfg.max_retries.getD 30,
              retry_delay_ms := cfg.retry_delay_ms.getD 100,
              max_retry_delay_ms := cfg.max_retry_delay_ms.getD 30000 }) ∧
    (mkRetryPolicy none = Except.ok
        { enabled := true, max_retries := 30, retry_delay_ms := 100,
          max_retry_delay_ms := 30000 }) ∧
    (∀ cfg p, mkRetryPolicy cfg = Except.ok p →
        p.retry_delay_ms ≤ p.max_retry_delay_ms) := by
  refine ⟨?_, ?_, ?_, ?_⟩
  · intro cfg
    unfold mkRetryPolicy
    simp only [Option.getD_some]
    split_ifs with h1 h2 h3 h4 <;> simp_all
  · intro cfg p h
    unfold mkRetryPolicy at h
    simp only [Option.getD_some] at h
    split_ifs at h with h1 h2 h3 h4 <;> simp only [Except.ok.injEq] at h
    exact h.symm
  · rfl
  · intro cfg p h
    unfold mkRetryPolicy at h
    dsimp only at h
    split_ifs at h with h1 h2 h3 h4 <;> simp only [Except.ok.injEq] at h
    subst h
    dsimp only
    omega

/-- C7 witness: a config with `retry_delay_ms = 200 > 50 = max_retry_delay_ms`
fails construction; the default-constructed policy satisfies the invariant. -/
theorem C7_mkRetryPolicy_validation_witness :
    (∃ msg, mkRetryPolicy (some { retry_delay_ms := some 200,
                                  max_retry_delay_ms := some 50 }) = Except.error msg) ∧
    ({ enabled := true, max_retries := 30, retry_delay_ms := 100,
       max_retry_delay_ms := 30000 } : RetryPolicy).retry_delay_ms ≤
      ({ enabled := true, max_retries := 30, retry_delay_ms := 100,
         max_retry_delay_ms := 30000 } : RetryPolicy).max_retry_delay_ms :=
  ⟨(C7_mkRetryPolicy_validation.1
      { retry_delay_ms := some 200, max_retry_delay_ms := some 50 }).mpr (by decide),
   C7_mkRetryPolicy_validation.2.2.2 none _ C7_mkRetryPolicy_validation.2.2.1⟩

/-- helper: for `r ≥ 1` and positive configured delays, the capped delay
computed inside `calculate_retry_delay` is the integer
`min (retry_delay_ms * 2^(r-1)) max_retry_delay_ms`, and
`calculate_retry_delay` is the floor of that integer plus the jitter term. -/
theorem calculate_retry_delay_eq (p : RetryPolicy) (r : Int) (j : ℚ) (hr : 1 ≤ r) :
    p.calculate_retry_delay r j =
      ⌊((min (p.retry_delay_ms * 2 ^ (r - 1).toNat) p.max_retry_delay_ms : Int) : ℚ)
        + j * ((min (p.retry_delay_ms * 2 ^ (r - 1).toNat) p.max_retry_delay_ms : Int) : ℚ)
          * (1 / 10)⌋ := by
  have h1 : (2 : ℚ) ^ (r - 1) = ((2 ^ (r - 1).toNat : Int) : ℚ) := by
    rw [show r - 1 = ((r - 1).toNat : Int) by omega, zpow_natCast]
    push_cast
    rfl
  unfold RetryPolicy.calculate_retry_delay
  rw [h1]
  push_cast
  ring_nf

/-- C6: for `r ≥ 1`, any jitter draw `j ∈ [0,1)` and positive configured
delays, `calculate_retry_delay r` lies in `[base, base * 1.1]` with
`base = min (retry_delay_ms * 2^(r-1)) max_retry_delay_ms`, and hence is
bounded above by `max_retry_delay_ms * 1.1`. -/
theorem C6_calculate_retry_delay_bounds (p : RetryPolicy) (r : Int) (j : ℚ)
    (hd : 0 < p.retry_delay_ms) (hx : 0 < p.max_retry_delay_ms)
    (hr : 1 ≤ r) (hj0 : 0 ≤ j) (hj1 : j < 1) :
    (min ((p.retry_delay_ms : ℚ) * (2 : ℚ) ^ (r - 1)) (p.max_retry_delay_ms : ℚ) ≤
        (p.calculate_retry_delay r j : ℚ)) ∧
    ((p.calculate_retry_delay r j : ℚ) ≤
        min ((p.retry_delay_ms : ℚ) * (2 : ℚ) ^ (r - 1)) (p.max_retry_delay_ms : ℚ)
          * (11 / 10)) ∧
    ((p.calculate_retry_delay r j : ℚ) ≤ (p.max_retry_delay_ms : ℚ) * (11 / 10)) := by
  have h1 : r - 1 = ((r - 1).toNat : Int) := by omega
  have hmin : min ((p.retry_delay_ms : ℚ) * (2 : ℚ) ^ (r - 1)) (p.max_retry_delay_ms : ℚ)
      = ((min (p.retry_delay_ms * 2 ^ (r - 1).toNat) p.max_retry_delay_ms : Int) : ℚ) := by
    rw [h1, zpow_natCast]
    push_cast
    rfl
  set B : Int := min (p.retry_delay_ms * 2 ^ (r - 1).toNat) p.max_retry_delay_ms with hB
  have hBpos : 0 < B := by
    rw [hB]
    have : 0 < p.retry_delay_ms * 2 ^ (r - 1).toNat := by positivity
    omega
  have hBQ : (0 : ℚ) < (B : ℚ) := by exact_mod_cast hBpos
  have hcalc := calculate_retry_delay_eq p r j hr
  rw [← hB] at hcalc
  have hjit0 : (0 : ℚ) ≤ j * (B : ℚ) * (1 / 10) := by positivity
  have hjit1 : j * (B : ℚ) * (1 / 10) ≤ (B : ℚ) * (1 / 10) := by
    have := mul_le_mul_of_nonneg_right (le_of_lt hj1) (le_of_lt hBQ)
    nlinarith
  refine ⟨?_, ?_, ?_⟩
  · rw [hmin, hcalc]
    have : (B : ℚ) ≤ (B : ℚ) + j * (B : ℚ) * (1 / 10) := by linarith
    exact_mod_cast Int.le_floor.mpr this
  · rw [hmin, hcalc]
    have hfl := Int.floor_le ((B : ℚ) + j * (B : ℚ) * (1 / 10))
    have : (B : ℚ) + j * (B : ℚ) * (1 / 10) ≤ (B : ℚ) * (11 / 10) := by linarith
    linarith
  · rw [hcalc]
    have hfl := Int.floor_le ((B : ℚ) + j * (B : ℚ) * (1 / 10))
    have hBx : (B : ℚ) ≤ (p.max_retry_delay_ms : ℚ) := by
      exact_mod_cast min_le_right _ _
    nlinarith

/-- C6 witness: the default policy at `r = 3` with jitter draw `j = 1/3`. -/
theorem C6_calculate_retry_delay_bounds_witness :
    let p : RetryPolicy := { enabled := true, max_retries := 30,
                             retry_delay_ms := 100, max_retry_delay_ms := 30000 }
    (min ((p.retry_delay_ms : ℚ) * (2 : ℚ) ^ ((3 : Int) - 1)) (p.max_retry_delay_ms : ℚ) ≤
        (p.calculate_retry_delay 3 (1 / 3) : ℚ)) ∧
    ((p.calculate_retry_delay 3 (1 / 3) : ℚ) ≤
        min ((p.retry_delay_ms : ℚ) * (2 : ℚ) ^ ((3 : Int) - 1)) (p.max_retry_delay_ms : ℚ)
          * (11 / 10)) ∧
    ((p.calculate_retry_delay 3 (1 / 3) : ℚ) ≤ (p.max_retry_delay_ms : ℚ) * (11 / 10)) :=
  C6_calculate_retry_delay_bounds
    { enabled := true, max_retries := 30, retry_delay_ms := 100, max_retry_delay_ms := 30000 }
    3 (1 / 3) (by decide) (by decide) (by decide) (by norm_num) (by norm_num)

/-! ## pearl_sdk/client.py : RetryHTTPAdapter.send and PearlClient -/

/-- A `requests.Response` as far as the retry loop observes it. -/
structure HttpResponse where
  status_code : Int
  body : String
deriving DecidableEq, Repr

/-- A `requests.RequestException`; `response` models `e.response` when the
attribute exists and is not `None`. -/
structure RequestException where
  response : Option HttpResponse
  msg : String
deriving DecidableEq, Repr

/-- Outcome of one underlying `super().send(request, **kwargs)` call: either a
response or a raised `requests.RequestException`. -/
inductive SendOutcome where
  | resp (r : HttpResponse)
  | exn (e : RequestException)
deriving DecidableEq, Repr

/-- The `status_code` local of one loop iteration of `RetryHTTPAdapter.send`:
the response status on success, else the status of the exception's attached
response when available. -/
def SendOutcome.statusCode : SendOutcome → Option Int
  | .resp r => some r.status_code
  | .exn e => e.response.map (fun r => r.status_code)

/-- The exit value of a loop iteration that does not retry: re-raise the
iteration's exception if one was caught, otherwise return the response. -/
def SendOutcome.result : SendOutcome → Except RequestException HttpResponse
  | .resp r => Except.ok r
  | .exn e => Except.error e

/-- The `while True:` loop of `RetryHTTPAdapter.send`.  The network is a
deterministic oracle `attempt : Nat → SendOutcome` giving the outcome of the
(0-indexed) n-th underlying send; iteration n runs with `retry_count = n`.
Returns the final `retry_count` together with the returned response or
re-raised exception.  Termination: a retrying iteration has
`should_retry retry_count status = true`, which forces
`retry_count < max_retries`. -/
def sendLoop (policy : RetryPolicy) (attempt : Nat → SendOutcome)
    (retry_count : Nat) : Nat × Except RequestException HttpResponse :=
  let outcome := attempt retry_count
  if h : policy.should_retry (retry_count : Int) outcome.statusCode = true then
    sendLoop policy attempt (retry_count + 1)
  else
    (retry_count, outcome.result)
termination_by policy.max_retries.toNat - retry_count
decreasing_by
  have := should_retry_imp_lt _ _ _ h
  omega

/-- `RetryHTTPAdapter.send` enters the loop with `retry_count = 0`. -/
def RetryHTTPAdapter.send (policy : RetryPolicy)
    (attempt : Nat → SendOutcome) : Nat × Except RequestException HttpResponse :=
  sendLoop policy attempt 0

/-- helper: the loop's final retry count stays below `max rc (max_retries+1)`
and its result is the exit value of the final attempt. -/
theorem sendLoop_spec (policy : RetryPolicy) (attempt : Nat → SendOutcome)
    (rc : Nat) :
    (sendLoop policy attempt rc).1 ≤ max rc policy.max_retries.toNat ∧
    (sendLoop policy attempt rc).2 = (attempt (sendLoop policy attempt rc).1).result := by
  induction rc using sendLoop.induct policy attempt with
  | case1 rc outcome h ih =>
    rw [sendLoop]
    simp only [outcome] at h
    rw [dif_pos h]
    have hlt := should_retry_imp_lt _ _ _ h
    refine ⟨le_trans ih.1 ?_, ih.2⟩
    omega
  | case2 rc outcome h =>
    rw [sendLoop]
    simp only [outcome] at h
    rw [dif_neg h]
    exact ⟨le_max_left _ _, rfl⟩

/-- C9: for every network oracle, `RetryHTTPAdapter.send` performs at most
`max_retries + 1` attempts (its final `retry_count` is at most `max_retries`),
and its exit value is exactly the final attempt's outcome: the response when
that attempt produced one, otherwise the re-raised exception. -/
theorem C9_send_terminates_with_last_outcome (policy : RetryPolicy)
    (attempt : Nat → SendOutcome) :
    (RetryHTTPAdapter.send policy attempt).1 + 1 ≤ policy.max_retries.toNat + 1 ∧
    (RetryHTTPAdapter.send policy attempt).2 =
      (attempt (RetryHTTPAdapter.send policy attempt).1).result := by
  have h := sendLoop_spec policy attempt 0
  unfold RetryHTTPAdapter.send
  refine ⟨?_, h.2⟩
  have := h.1
  omega

/-! ## pearl_sdk/resources/webhooks.py : Webhooks -/

/-- The state of a constructed `Webhooks` resource (the HTTP session is not
modelled; only the bound secret matters for the claims). -/
structure Webhooks where
  webhook_secret : String
deriving DecidableEq, Repr

/-- `Webhooks.__init__(session, webhook_secret)`: raises `ValueError` when the
secret is falsy (the empty string). -/
def mkWebhooks (webhook_secret : String) : Except String Webhooks :=
  if webhook_secret = "" then
    Except.error "Webhook secret must be provided to Webhooks resource."
  else Except.ok { webhook_secret := webhook_secret }

/-- The state of a constructed `PearlClient` relevant to the claims:
credentials, configuration, and the bound resources. -/
structure PearlClient where
  api_key : String
  base_url : String
  retry_policy : RetryPolicy
  timeout : ℚ
  webhooks : Webhooks
deriving DecidableEq, Repr

/-- `timeout is not None and (not isinstance(...) or timeout <= 0)`; the
`isinstance` half is vacuous for a `ℚ`-typed timeout. -/
def timeoutInvalid : Option ℚ → Bool
  | some t => decide (t ≤ 0)
  | none => false

/-- `PearlClient.__init__(api_key, base_url, timeout, retry_policy)`, in
source order: reject a falsy `api_key`; reject a non-positive supplied
`timeout`; construct the `RetryPolicy` (which may itself raise); default
`base_url` and `timeout`; bind `Webhooks(session, api_key)` — the bound
webhook secret is the api key itself. -/
def mkPearlClient (api_key : String) (base_url : Option String)
    (timeout : Option ℚ) (retry_policy : Option RetryPolicyConfig) :
    Except String PearlClient :=
  if api_key = "" then Except.error "PearlClient must include an api_key."
  else if timeoutInvalid timeout then
    Except.error "Timeout must be a positive number if provided."
  else
    match mkRetryPolicy retry_policy with
    | Except.error msg => Except.error msg
    | Except.ok rp =>
      match mkWebhooks api_key with
      | Except.error msg => Except.error msg
      | Except.ok wh =>
        Except.ok { api_key := api_key,
                    base_url := base_url.getD "https://api.pearl.com/api/v1",
                    retry_policy := rp,
                    timeout := timeout.getD 30,
                    webhooks := wh }

/-- C10: every successfully constructed `PearlClient` binds its `Webhooks`
resource to exactly its `api_key` (no derivation), the key is non-empty, and
the `Webhooks` constructor succeeded on it — its empty-secret error branch is
unreachable through `PearlClient` construction. -/
theorem C10_webhooks_secret_is_api_key (api_key : String) (base_url : Option String)
    (timeout : Option ℚ) (retry_policy : Option RetryPolicyConfig) (c : PearlClient)
    (h : mkPearlClient api_key base_url timeout retry_policy = Except.ok c) :
    c.webhooks.webhook_secret = api_key ∧ api_key ≠ "" ∧
    mkWebhooks api_key = Except.ok c.webhooks := by
  unfold mkPearlClient at h
  by_cases h1 : api_key = ""
  · rw [if_pos h1] at h
    exact Except.noConfusion h
  · rw [if_neg h1] at h
    by_cases h2 : timeoutInvalid timeout = true
    · rw [if_pos h2] at h
      exact Except.noConfusion h
    · rw [if_neg h2] at h
      cases hrp : mkRetryPolicy retry_policy with
      | error msg =>
        rw [hrp] at h
        exact Except.noConfusion h
      | ok rp =>
        rw [hrp] at h
        unfold mkWebhooks at h
        rw [if_neg h1] at h
        simp only [Except.ok.injEq] at h
        subst h
        refine ⟨rfl, h1, ?_⟩
        unfold mkWebhooks
        rw [if_neg h1]

/-- C10 witness: a concrete client constructed with key `k1` and all other
arguments absent. -/
theorem C10_webhooks_secret_is_api_key_witness :
    Webhooks.webhook_secret (PearlClient.webhooks
      { api_key := "k1", base_url := "https://api.pearl.com/api/v1",
        retry_policy := { enabled := true, max_retries := 30, retry_delay_ms := 100,
                          max_retry_delay_ms := 30000 },
        timeout := 30, webhooks := { webhook_secret := "k1" } }) = "k1" ∧
    "k1" ≠ "" ∧
    mkWebhooks "k1" = Except.ok (PearlClient.webhooks
      { api_key := "k1", base_url := "https://api.pearl.com/api/v1",
        retry_policy := { enabled := true, max_retries := 30, retry_delay_ms := 100,
                          max_retry_delay_ms := 30000 },
        timeout := 30, webhooks := { webhook_secret := "k1" } }) :=
  C10_webhooks_secret_is_api_key "k1" none none none _ (by rfl)

/-! ## pearl_sdk/resources/chat.py : Chat._parse_chat_completion_response

The raw `response.json()` value is a dynamic JSON tree.  Python dataclasses do
not enforce field types, so parsed fields hold arbitrary JSON values and the
parsed structures below carry `Json` fields. -/

/-- A JSON value as produced by `response.json()` (Python `None`/`bool`/`int`/
`str`/`list`/`dict`; numeric values beyond `int` do not occur in the claims
and are not modelled). -/
inductive Json where
  | null
  | bool (b : Bool)
  | num (n : Int)
  | str (s : String)
  | arr (elems : List Json)
  | obj (fields : List (String × Json))

/-- Python truthiness of a JSON value (`None`, `False`, `0`, `""`, `[]`, and
`{}` are falsy). -/
def Json.truthy : Json → Bool
  | .null => false
  | .bool b => b
  | .num n => n != 0
  | .str s => s != ""
  | .arr elems => !elems.isEmpty
  | .obj fields => !fields.isEmpty

/-- First-match association lookup, i.e. Python dict indexing on the modelled
field list. -/
def jsonLookup : List (String × Json) → String → Option Json
  | [], _ => none
  | (k, v) :: rest, key => if k = key then some v else jsonLookup rest key

/-- Python `d.get(key, default)` (and `d.get(key)` with `default = .null`):
a present key wins even if its value is `null`; on a non-dict receiver Python
raises `AttributeError` — the claims only apply the parser to dicts, and the
model returns the default there. -/
def Json.get (j : Json) (key : String) (default : Json) : Json :=
  match j with
  | .obj fields => (jsonLookup fields key).getD default
  | _ => default

/-- Python `a or b`: `a` if truthy, else `b`. -/
def pyOr (a b : Json) : Json := if a.truthy then a else b

/-- The sequence iterated by `for choice_data in data.get('choices', [])`
(`[]` for non-lists; Python would raise on non-iterables, which the claims
never exercise). -/
def Json.items : Json → List Json
  | .arr elems => elems
  | _ => []

/-- `ExpertInfo` dataclass as populated by the parser. -/
structure ExpertInfo where
  name : Json
  job_description : Json
  avatar_url : Json

/-- `ChatCompletionResponseMessage` dataclass as populated by the parser. -/
structure ChatCompletionResponseMessage where
  is_human : Json
  expert_info : Option ExpertInfo
  role : Json
  content : Json

/-- `ChatCompletionChoice` dataclass as populated by the parser. -/
structure ChatCompletionChoice where
  index : Json
  message : ChatCompletionResponseMessage
  finish_reason : Json

/-- `ChatCompletionResponse` dataclass as populated by the parser. -/
structure ChatCompletionResponse where
  id : Json
  choices : List ChatCompletionChoice
  created : Json
  question_id : Json
  user_id : Json

/-- The `ExpertInfo(...)` construction inside the loop of
`Chat._parse_chat_completion_response`. -/
def parseExpertInfo (expert_info_data : Json) : ExpertInfo :=
  { name := expert_info_data.get "name" .null,
    job_description := pyOr (expert_info_data.get "jobDescription" .null)
      (expert_info_data.get "job_description" .null),
    avatar_url := pyOr (expert_info_data.get "avatarUrl" .null)
      (expert_info_data.get "avatar_url" .null) }

/-- One iteration of the `for choice_data in data.get('choices', [])` loop of
`Chat._parse_chat_completion_response`. -/
def parseChoice (choice_data : Json) : ChatCompletionChoice :=
  let message_data := choice_data.get "message" (.obj [])
  let expert_info_data := pyOr (message_data.get "expertInfo" .null)
    (message_data.get "expert_info" .null)
  let expert_info : Option ExpertInfo :=
    if expert_info_data.truthy then some (parseExpertInfo expert_info_data) else none
  { index := choice_data.get "index" (.num 0),
    message :=
      { is_human := pyOr (message_data.get "isHuman" (.bool false))
          (message_data.get "is_human" (.bool false)),
        expert_info := expert_info,
        role := message_data.get "role" (.str "assistant"),
        content := message_data.get "content" .null },
    finish_reason := choice_data.get "finish_reason" (.str "") }

/-- `Chat._parse_chat_completion_response(data)`. -/
def parse_chat_completion_response (data : Json) : ChatCompletionResponse :=
  { id := data.get "id" (.str ""),
    choices := (data.get "choices" (.arr [])).items.map parseChoice,
    created := data.get "created" (.num 0),
    question_id := pyOr (data.get "questionId" .null) (data.get "question_id" .null),
    user_id := pyOr (data.get "userId" .null) (data.get "user_id" .null) }

/-- The dual-name resolution rule asserted by the SPEC (not the code): the
first NON-NULL candidate wins. -/
def firstNonNull (a b : Json) : Json :=
  match a with
  | .null => b
  | _ => a

/-- C4 counterexample: with `"isHuman": false` (present and non-null) and
`"is_human": true`, the spec's first-non-null rule resolves `is_human` to
`false`, but the parser (Python `or`, first TRUTHY wins) produces `true`. -/
theorem C4_counterexample_is_human_truthiness :
    ((parse_chat_completion_response
        (.obj [("choices", .arr [.obj [("message",
            .obj [("isHuman", .bool false), ("is_human", .bool true)])]])])).choices.map
      (fun c => c.message.is_human)) = [.bool true] ∧
    firstNonNull
      ((Json.obj [("isHuman", .bool false), ("is_human", .bool true)]).get "isHuman" (.bool false))
      ((Json.obj [("isHuman", .bool false), ("is_human", .bool true)]).get "is_human" (.bool false))
      = .bool false ∧
    Json.bool true ≠ Json.bool false := by
  refine ⟨rfl, rfl, ?_⟩
  intro h
  injection h with hb
  cases hb

/-- C4 (amended): the parser resolves each dual-named field by Python `or` —
the first TRUTHY match wins, so a present-but-falsy camelCase value falls
through to the snake_case variant (for `isHuman`/`is_human` each lookup
defaults to `false`); a missing `choices` key parses to the empty sequence,
a missing `finish_reason` to the empty string, and a missing `role` to
`"assistant"`. -/
theorem C4_parser_field_resolution :
    (∀ data : Json, (parse_chat_completion_response data).question_id =
        pyOr (data.get "questionId" .null) (data.get "question_id" .null)) ∧
    (∀ data : Json, (parse_chat_completion_response data).user_id =
        pyOr (data.get "userId" .null) (data.get "user_id" .null)) ∧
    (∀ fields, jsonLookup fields "choices" = none →
        (parse_chat_completion_response (.obj fields)).choices = []) ∧
    (∀ choice_data : Json, (parseChoice choice_data).message.is_human =
        pyOr ((choice_data.get "message" (.obj [])).get "isHuman" (.bool false))
             ((choice_data.get "message" (.obj [])).get "is_human" (.bool false))) ∧
    (∀ choice_data : Json, (parseChoice choice_data).message.expert_info =
        (if (pyOr ((choice_data.get "message" (.obj [])).get "expertInfo" .null)
                  ((choice_data.get "message" (.obj [])).get "expert_info" .null)).truthy
         then some (parseExpertInfo
                (pyOr ((choice_data.get "message" (.obj [])).get "expertInfo" .null)
                      ((choice_data.get "message" (.obj [])).get "expert_info" .null)))
         else none)) ∧
    (∀ e : Json, (parseExpertInfo e).job_description =
        pyOr (e.get "jobDescription" .null) (e.get "job_description" .null)) ∧
    (∀ e : Json, (parseExpertInfo e).avatar_url =
        pyOr (e.get "avatarUrl" .null) (e.get "avatar_url" .null)) ∧
    (∀ cfields, jsonLookup cfields "finish_reason" = none →
        (parseChoice (.obj cfields)).finish_reason = .str "") ∧
    (∀ cfields mfields, jsonLookup cfields "message" = some (.obj mfields) →
        jsonLookup mfields "role" = none →
        (parseChoice (.obj cfields)).message.role = .str "assistant") := by
  refine ⟨fun data => rfl, fun data => rfl, ?_, fun cd => rfl, fun cd => rfl,
          fun e => rfl, fun e => rfl, ?_, ?_⟩
  · intro fields h
    simp [parse_chat_completion_response, Json.get, h, Json.items]
  · intro cfields h
    simp [parseChoice, Json.get, h]
  · intro cfields mfields hm hr
    simp [parseChoice, Json.get, hm, hr]

/-- C4 witness: defaults fire on concrete inputs — empty top-level object,
choice without `finish_reason`, message without `role`. -/
theorem C4_parser_field_resolution_witness :
    (parse_chat_completion_response (.obj [])).choices = [] ∧
    (parseChoice (.obj [])).finish_reason = .str "" ∧
    (parseChoice (.obj [("message", .obj [])])).message.role = .str "assistant" :=
  ⟨C4_parser_field_resolution.2.2.1 [] rfl,
   C4_parser_field_resolution.2.2.2.2.2.2.2.1 [] rfl,
   C4_parser_field_resolution.2.2.2.2.2.2.2.2 [("message", .obj [])] [] rfl rfl⟩

/-! ## pearl_sdk/utils/signature_utils.py

Byte strings are `List Nat` (each element a byte `< 256`).  `hashlib`,
`hmac` and `base64` are Python standard-library collaborators; they are
embedded below by their published algorithms (FIPS 180-4 SHA-1/SHA-256,
RFC 2104 HMAC, RFC 4648 Base64).  The model's Base64 decoder accepts the
canonical padded form and rejects everything else, while CPython's
`base64.b64decode` first discards foreign characters; both behaviours agree
on every string this development decodes. -/

/-- UTF-8 bytes of a string (`s.encode('utf-8')`). -/
def strBytes (s : String) : List Nat := s.toUTF8.toList.map (fun b => b.toNat)

/-- `bytes.hex().upper()`: big-endian nibbles, uppercase digits. -/
def hexUpperChar (n : Nat) : Char :=
  ("0123456789ABCDEF".toList).getD n '0'

/-- Render bytes as uppercase hexadecimal text. -/
def bytesToHexUpper : List Nat → List Char
  | [] => []
  | b :: rest => hexUpperChar (b / 16) :: hexUpperChar (b % 16) :: bytesToHexUpper rest

/-- The RFC 4648 standard Base64 alphabet. -/
def b64Alphabet : List Char :=
  "ABCDEFGHIJKLMNOPQRSTUVWXYZabcdefghijklmnopqrstuvwxyz0123456789+/".toList

/-- The Base64 character of a 6-bit group. -/
def b64Char (n : Nat) : Char := b64Alphabet.getD n '='

/-- The 6-bit value of a Base64 character (`none` for non-alphabet
characters, including the padding character). -/
def b64Index (c : Char) : Option Nat := b64Alphabet.findIdx? (fun x => x == c)

/-- `base64.b64encode`, 3 input bytes to 4 output characters with `=`
padding. -/
def b64EncodeChunks : List Nat → List Char
  | [] => []
  | [b1] => [b64Char (b1 / 4), b64Char (b1 % 4 * 16), '=', '=']
  | [b1, b2] => [b64Char (b1 / 4), b64Char (b1 % 4 * 16 + b2 / 16), b64Char (b2 % 16 * 4), '=']
  | b1 :: b2 :: b3 :: rest =>
      b64Char (b1 / 4) :: b64Char (b1 % 4 * 16 + b2 / 16) ::
        b64Char (b2 % 16 * 4 + b3 / 64) :: b64Char (b3 % 64) :: b64EncodeChunks rest

/-- `base64.b64encode(..).decode('utf-8')` as a string. -/
def b64encode (bs : List Nat) : String := String.mk (b64EncodeChunks bs)

/-- `base64.b64decode`: 4 characters to 3 bytes, padding only at the end;
`none` models the raised `binascii.Error`. -/
def b64DecodeChunks : List Char → Option (List Nat)
  | [] => some []
  | c1 :: c2 :: c3 :: c4 :: rest =>
      match b64Index c1, b64Index c2 with
      | some n1, some n2 =>
        if c3 = '=' ∧ c4 = '=' ∧ rest = [] then some [n1 * 4 + n2 / 16]
        else
          match b64Index c3 with
          | some n3 =>
            if c4 = '=' ∧ rest = [] then some [n1 * 4 + n2 / 16, n2 % 16 * 16 + n3 / 4]
            else
              match b64Index c4, b64DecodeChunks rest with
              | some n4, some bs =>
                  some ((n1 * 4 + n2 / 16) :: (n2 % 16 * 16 + n3 / 4) :: (n3 % 4 * 64 + n4) :: bs)
              | _, _ => none
          | none => none
      | _, _ => none
  | _ => none

/-- `base64.b64decode` on a string. -/
def b64decode (s : String) : Option (List Nat) := b64DecodeChunks s.toList

/-- helper: the Base64 alphabet map is injectively inverted by `b64Index` on
6-bit values. -/
theorem b64Index_b64Char : ∀ n, n < 64 → b64Index (b64Char n) = some n := by decide

/-- helper: no 6-bit value encodes to the padding character. -/
theorem b64Char_ne_pad : ∀ n, n < 64 → b64Char n ≠ '=' := by decide

/-- helper: decoding inverts encoding on byte lists. -/
theorem b64DecodeChunks_b64EncodeChunks (bs : List Nat) (hb : ∀ b ∈ bs, b < 256) :
    b64DecodeChunks (b64EncodeChunks bs) = some bs := by
  induction bs using b64EncodeChunks.induct with
  | case1 => rfl
  | case2 b1 =>
    have h1 : b1 < 256 := hb b1 (by simp)
    have e1 : b64Index (b64Char (b1 / 4)) = some (b1 / 4) := b64Index_b64Char _ (by omega)
    have e2 : b64Index (b64Char (b1 % 4 * 16)) = some (b1 % 4 * 16) :=
      b64Index_b64Char _ (by omega)
    simp [b64EncodeChunks, b64DecodeChunks, e1, e2]
    omega
  | case3 b1 b2 =>
    have h1 : b1 < 256 := hb b1 (by simp)
    have h2 : b2 < 256 := hb b2 (by simp)
    have e1 : b64Index (b64Char (b1 / 4)) = some (b1 / 4) := b64Index_b64Char _ (by omega)
    have e2 : b64Index (b64Char (b1 % 4 * 16 + b2 / 16)) = some (b1 % 4 * 16 + b2 / 16) :=
      b64Index_b64Char _ (by omega)
    have e3 : b64Index (b64Char (b2 % 16 * 4)) = some (b2 % 16 * 4) :=
      b64Index_b64Char _ (by omega)
    have ne3 : b64Char (b2 % 16 * 4) ≠ '=' := b64Char_ne_pad _ (by omega)
    simp [b64EncodeChunks, b64DecodeChunks, e1, e2, e3, ne3]
    omega
  | case4 b1 b2 b3 rest ih =>
    have h1 : b1 < 256 := hb b1 (by simp)
    have h2 : b2 < 256 := hb b2 (by simp)
    have h3 : b3 < 256 := hb b3 (by simp)
    have hrest : ∀ b ∈ rest, b < 256 := fun b hmem => hb b (by simp [hmem])
    have e1 : b64Index (b64Char (b1 / 4)) = some (b1 / 4) := b64Index_b64Char _ (by omega)
    have e2 : b64Index (b64Char (b1 % 4 * 16 + b2 / 16)) = some (b1 % 4 * 16 + b2 / 16) :=
      b64Index_b64Char _ (by omega)
    have e3 : b64Index (b64Char (b2 % 16 * 4 + b3 / 64)) = some (b2 % 16 * 4 + b3 / 64) :=
      b64Index_b64Char _ (by omega)
    have e4 : b64Index (b64Char (b3 % 64)) = some (b3 % 64) := b64Index_b64Char _ (by omega)
    have ne3 : b64Char (b2 % 16 * 4 + b3 / 64) ≠ '=' := b64Char_ne_pad _ (by omega)
    have ne4 : b64Char (b3 % 64) ≠ '=' := b64Char_ne_pad _ (by omega)
    simp [b64EncodeChunks, b64DecodeChunks, e1, e2, e3, e4, ne3, ne4, ih hrest]
    omega

/-- helper: encoded length is `4 * ⌈n/3⌉`. -/
theorem b64EncodeChunks_length (bs : List Nat) :
    (b64EncodeChunks bs).length = 4 * ((bs.length + 2) / 3) := by
  induction bs using b64EncodeChunks.induct with
  | case1 => rfl
  | case2 b1 => simp [b64EncodeChunks]
  | case3 b1 b2 => simp [b64EncodeChunks]
  | case4 b1 b2 b3 rest ih =>
    simp [b64EncodeChunks, ih]
    omega

/-- Truncation to a 32-bit word. -/
def w32 (n : Nat) : Nat := n % 4294967296

/-- 32-bit left rotation (inputs are 32-bit words). -/
def rotl32 (x s : Nat) : Nat := w32 ((x <<< s) ||| (x >>> (32 - s)))

/-- 32-bit right rotation (inputs are 32-bit words). -/
def rotr32 (x s : Nat) : Nat := w32 ((x >>> s) ||| (x <<< (32 - s)))

/-- The 8-byte big-endian rendering of the message bit length used by the
FIPS 180-4 padding. -/
def lenBytesBE (bitlen : Nat) : List Nat :=
  [bitlen >>> 56 % 256, bitlen >>> 48 % 256, bitlen >>> 40 % 256, bitlen >>> 32 % 256,
   bitlen >>> 24 % 256, bitlen >>> 16 % 256, bitlen >>> 8 % 256, bitlen % 256]

/-- FIPS 180-4 padding (shared by SHA-1 and SHA-256): append `0x80`, zero
bytes up to 56 mod 64, then the 64-bit big-endian bit length. -/
def md_pad (msg : List Nat) : List Nat :=
  msg ++ 128 :: List.replicate ((119 - msg.length % 64) % 64) 0 ++ lenBytesBE (8 * msg.length)

/-- Split a byte sequence into 64-byte blocks. -/
def toBlocks (bs : List Nat) : List (List Nat) :=
  if h : bs = [] then []
  else bs.take 64 :: toBlocks (bs.drop 64)
termination_by bs.length
decreasing_by
  have : 0 < bs.length := List.length_pos.mpr h
  simp [List.length_drop]
  omega

/-- Big-endian 32-bit words of a block. -/
def toWordsBE : List Nat → List Nat
  | b1 :: b2 :: b3 :: b4 :: rest => (((b1 * 256 + b2) * 256 + b3) * 256 + b4) :: toWordsBE rest
  | _ => []

/-- Big-endian bytes of a word list (4 bytes per word). -/
def wordsToBytesBE : List Nat → List Nat
  | [] => []
  | w :: rest => w >>> 24 % 256 :: w >>> 16 % 256 :: w >>> 8 % 256 :: w % 256 ::
      wordsToBytesBE rest

/-- The five SHA-1 chaining words. -/
structure Sha1State where
  a0 : Nat
  b0 : Nat
  c0 : Nat
  d0 : Nat
  e0 : Nat

/-- FIPS 180-4 SHA-1 initial hash value. -/
def sha1Init : Sha1State :=
  { a0 := 0x67452301, b0 := 0xEFCDAB89, c0 := 0x98BADCFE, d0 := 0x10325476, e0 := 0xC3D2E1F0 }

/-- SHA-1 message-schedule extension from 16 to 80 words. -/
def sha1Extend (w : List Nat) : List Nat :=
  (List.range 64).foldl (fun ws _ =>
    ws ++ [rotl32 ((ws.getD (ws.length - 3) 0) ^^^ (ws.getD (ws.length - 8) 0) ^^^
      (ws.getD (ws.length - 14) 0) ^^^ (ws.getD (ws.length - 16) 0)) 1]) w

/-- SHA-1 round function. -/
def sha1F (i b c d : Nat) : Nat :=
  if i < 20 then (b &&& c) ||| ((b ^^^ 0xFFFFFFFF) &&& d)
  else if i < 40 then b ^^^ c ^^^ d
  else if i < 60 then (b &&& c) ||| (b &&& d) ||| (c &&& d)
  else b ^^^ c ^^^ d

/-- SHA-1 round constants. -/
def sha1K (i : Nat) : Nat :=
  if i < 20 then 0x5A827999
  else if i < 40 then 0x6ED9EBA1
  else if i < 60 then 0x8F1BBCDC
  else 0xCA62C1D6

/-- SHA-1 compression of one 64-byte block. -/
def sha1Compress (st : Sha1State) (block : List Nat) : Sha1State :=
  let w := sha1Extend (toWordsBE block)
  let r := (List.range 80).foldl (fun (t : Nat × Nat × Nat × Nat × Nat) i =>
    let temp := w32 (rotl32 t.1 5 + sha1F i t.2.1 t.2.2.1 t.2.2.2.1 + t.2.2.2.2 +
      sha1K i + w.getD i 0)
    (temp, t.1, rotl32 t.2.1 30, t.2.2.1, t.2.2.2.1)) (st.a0, st.b0, st.c0, st.d0, st.e0)
  { a0 := w32 (st.a0 + r.1), b0 := w32 (st.b0 + r.2.1), c0 := w32 (st.c0 + r.2.2.1),
    d0 := w32 (st.d0 + r.2.2.2.1), e0 := w32 (st.e0 + r.2.2.2.2) }

/-- `hashlib.sha1(msg).digest()`: the 20-byte SHA-1 digest. -/
def sha1 (msg : List Nat) : List Nat :=
  let st := (toBlocks (md_pad msg)).foldl sha1Compress sha1Init
  wordsToBytesBE [st.a0, st.b0, st.c0, st.d0, st.e0]

/-- The eight SHA-256 chaining words. -/
structure Sha256State where
  a0 : Nat
  b0 : Nat
  c0 : Nat
  d0 : Nat
  e0 : Nat
  f0 : Nat
  g0 : Nat
  h0 : Nat

/-- FIPS 180-4 SHA-256 initial hash value. -/
def sha256Init : Sha256State :=
  { a0 := 0x6A09E667, b0 := 0xBB67AE85, c0 := 0x3C6EF372, d0 := 0xA54FF53A,
    e0 := 0x510E527F, f0 := 0x9B05688C, g0 := 0x1F83D9AB, h0 := 0x5BE0CD19 }

/-- FIPS 180-4 SHA-256 round constants. -/
def sha256K : List Nat :=
  [0x428A2F98, 0x71374491, 0xB5C0FBCF, 0xE9B5DBA5, 0x3956C25B, 0x59F111F1,
   0x923F82A4, 0xAB1C5ED5, 0xD807AA98, 0x12835B01, 0x243185BE, 0x550C7DC3,
   0x72BE5D74, 0x80DEB1FE, 0x9BDC06A7, 0xC19BF174, 0xE49B69C1, 0xEFBE4786,
   0x0FC19DC6, 0x240CA1CC, 0x2DE92C6F, 0x4A7484AA, 0x5CB0A9DC, 0x76F988DA,
   0x983E5152, 0xA831C66D, 0xB00327C8, 0xBF597FC7, 0xC6E00BF3, 0xD5A79147,
   0x06CA6351, 0x14292967, 0x27B70A85, 0x2E1B2138, 0x4D2C6DFC, 0x53380D13,
   0x650A7354, 0x766A0ABB, 0x81C2C92E, 0x92722C85, 0xA2BFE8A1, 0xA81A664B,
   0xC24B8B70, 0xC76C51A3, 0xD192E819, 0xD6990624, 0xF40E3585, 0x106AA070,
   0x19A4C116, 0x1E376C08, 0x2748774C, 0x34B0BCB5, 0x391C0CB3, 0x4ED8AA4A,
   0x5B9CCA4F, 0x682E6FF3, 0x748F82EE, 0x78A5636F, 0x84C87814, 0x8CC70208,
   0x90BEFFFA, 0xA4506CEB, 0xBEF9A3F7, 0xC67178F2]

/-- SHA-256 small sigma 0. -/
def ssig0 (x : Nat) : Nat := rotr32 x 7 ^^^ rotr32 x 18 ^^^ (x >>> 3)

/-- SHA-256 small sigma 1. -/
def ssig1 (x : Nat) : Nat := rotr32 x 17 ^^^ rotr32 x 19 ^^^ (x >>> 10)

/-- SHA-256 big sigma 0. -/
def bsig0 (x : Nat) : Nat := rotr32 x 2 ^^^ rotr32 x 13 ^^^ rotr32 x 22

/-- SHA-256 big sigma 1. -/
def bsig1 (x : Nat) : Nat := rotr32 x 6 ^^^ rotr32 x 11 ^^^ rotr32 x 25

/-- SHA-256 message-schedule extension from 16 to 64 words. -/
def sha256Extend (w : List Nat) : List Nat :=
  (List.range 48).foldl (fun ws _ =>
    ws ++ [w32 ((ws.getD (ws.length - 16) 0) + ssig0 (ws.getD (ws.length - 15) 0) +
      (ws.getD (ws.length - 7) 0) + ssig1 (ws.getD (ws.length - 2) 0))]) w

/-- SHA-256 compression of one 64-byte block. -/
def sha256Compress (st : Sha256State) (block : List Nat) : Sha256State :=
  let w := sha256Extend (toWordsBE block)
  let r := (List.range 64).foldl
    (fun (t : Nat × Nat × Nat × Nat × Nat × Nat × Nat × Nat) i =>
      let a := t.1
      let b := t.2.1
      let c := t.2.2.1
      let d := t.2.2.2.1
      let e := t.2.2.2.2.1
      let f := t.2.2.2.2.2.1
      let g := t.2.2.2.2.2.2.1
      let hh := t.2.2.2.2.2.2.2
      let ch := (e &&& f) ^^^ ((e ^^^ 0xFFFFFFFF) &&& g)
      let maj := (a &&& b) ^^^ (a &&& c) ^^^ (b &&& c)
      let t1 := w32 (hh + bsig1 e + ch + sha256K.getD i 0 + w.getD i 0)
      let t2 := w32 (bsig0 a + maj)
      (w32 (t1 + t2), a, b, c, w32 (d + t1), e, f, g))
    (st.a0, st.b0, st.c0, st.d0, st.e0, st.f0, st.g0, st.h0)
  { a0 := w32 (st.a0 + r.1), b0 := w32 (st.b0 + r.2.1), c0 := w32 (st.c0 + r.2.2.1),
    d0 := w32 (st.d0 + r.2.2.2.1), e0 := w32 (st.e0 + r.2.2.2.2.1),
    f0 := w32 (st.f0 + r.2.2.2.2.2.1), g0 := w32 (st.g0 + r.2.2.2.2.2.2.1),
    h0 := w32 (st.h0 + r.2.2.2.2.2.2.2) }

/-- `hashlib.sha256(msg).digest()`: the 32-byte SHA-256 digest. -/
def sha256 (msg : List Nat) : List Nat :=
  let st := (toBlocks (md_pad msg)).foldl sha256Compress sha256Init
  wordsToBytesBE [st.a0, st.b0, st.c0, st.d0, st.e0, st.f0, st.g0, st.h0]

/-- RFC 2104 HMAC-SHA1 (`hmac.new(key, msg, hashlib.sha1).digest()`), block
size 64. -/
def hmacSha1 (key msg : List Nat) : List Nat :=
  let k0 := if 64 < key.length then sha1 key else key
  let kpad := k0 ++ List.replicate (64 - k0.length) 0
  let ipad := kpad.map (fun b => b ^^^ 0x36)
  let opad := kpad.map (fun b => b ^^^ 0x5C)
  sha1 (opad ++ sha1 (ipad ++ msg))

/-- `_derive_hmac_key(initial_secret)`: SHA-256 of
`initial_secret + ":reference_token"` (UTF-8), rendered as uppercase hex
text. -/
def derive_hmac_key (initial_secret : String) : String :=
  String.mk (bytesToHexUpper (sha256 (strBytes (initial_secret ++ ":reference_token"))))

/-- `compute_webhook_signature(secret, payload)`: raises on an empty secret,
else HMAC-SHA1 over the UTF-8 payload bytes keyed by the UTF-8 bytes of the
derived key text, Base64-encoded. -/
def compute_webhook_signature (secret payload : String) : Except String String :=
  if secret = "" then Except.error "Webhook secret cannot be empty."
  else
    Except.ok (b64encode (hmacSha1 (strBytes (derive_hmac_key secret)) (strBytes payload)))

/-- `verify_webhook_signature(received_signature, payload, secret)`: raises
when any argument is empty; recomputes the expected signature; decodes both
(a decode failure yields `False`, modelling the `try/except`); compares
lengths, then the bytes in constant time (`hmac.compare_digest`, modelled as
list equality). -/
def verify_webhook_signature (received_signature webhook_payload_json_string
    webhook_secret : String) : Except String Bool :=
  if received_signature = "" ∨ webhook_payload_json_string = "" ∨ webhook_secret = "" then
    Except.error "Missing required parameters for webhook signature verification."
  else
    match compute_webhook_signature webhook_secret webhook_payload_json_string with
    | Except.error msg => Except.error msg
    | Except.ok computed_signature =>
      match b64decode received_signature, b64decode computed_signature with
      | some received_sig_bytes, some computed_sig_bytes =>
        if received_sig_bytes.length ≠ computed_sig_bytes.length then Except.ok false
        else Except.ok (received_sig_bytes == computed_sig_bytes)
      | _, _ => Except.ok false

/-- helper: `wordsToBytesBE` yields 4 bytes per word. -/
theorem wordsToBytesBE_length (ws : List Nat) :
    (wordsToBytesBE ws).length = 4 * ws.length := by
  induction ws with
  | nil => rfl
  | cons w rest ih =>
    simp [wordsToBytesBE, ih]
    omega

/-- helper: every element of `wordsToBytesBE` is a byte. -/
theorem wordsToBytesBE_lt (ws : List Nat) : ∀ b ∈ wordsToBytesBE ws, b < 256 := by
  induction ws with
  | nil => intro b hmem; cases hmem
  | cons w rest ih =>
    intro b hmem
    simp only [wordsToBytesBE, List.mem_cons] at hmem
    rcases hmem with h | h | h | h | h
    · subst h; omega
    · subst h; omega
    · subst h; omega
    · subst h; omega
    · exact ih b h

/-- helper: a SHA-1 digest is 20 bytes. -/
theorem sha1_length (msg : List Nat) : (sha1 msg).length = 20 := by
  unfold sha1
  rw [wordsToBytesBE_length]
  rfl

/-- helper: SHA-1 digest elements are bytes. -/
theorem sha1_lt (msg : List Nat) : ∀ b ∈ sha1 msg, b < 256 := by
  unfold sha1
  exact wordsToBytesBE_lt _

/-- helper: an HMAC-SHA1 digest is 20 bytes. -/
theorem hmacSha1_length (key msg : List Nat) : (hmacSha1 key msg).length = 20 := by
  unfold hmacSha1
  exact sha1_length _

/-- helper: HMAC-SHA1 digest elements are bytes. -/
theorem hmacSha1_lt (key msg : List Nat) : ∀ b ∈ hmacSha1 key msg, b < 256 := by
  unfold hmacSha1
  exact sha1_lt _

/-- helper: decoding a Base64-encoded byte list gives it back. -/
theorem b64decode_b64encode (bs : List Nat) (hb : ∀ b ∈ bs, b < 256) :
    b64decode (b64encode bs) = some bs := by
  unfold b64decode b64encode
  rw [show (String.mk (b64EncodeChunks bs)).toList = b64EncodeChunks bs from rfl]
  exact b64DecodeChunks_b64EncodeChunks bs hb

/-- helper: the length of a Base64-encoded byte list. -/
theorem b64encode_length (bs : List Nat) :
    (b64encode bs).length = 4 * ((bs.length + 2) / 3) := by
  unfold b64encode
  rw [show (String.mk (b64EncodeChunks bs)).length = (b64EncodeChunks bs).length from rfl]
  exact b64EncodeChunks_length bs

/-- helper: the non-error value of `compute_webhook_signature`. -/
theorem compute_webhook_signature_ok (secret payload : String) (hs : secret ≠ "") :
    compute_webhook_signature secret payload =
      Except.ok (b64encode (hmacSha1 (strBytes (derive_hmac_key secret))
        (strBytes payload))) := by
  unfold compute_webhook_signature
  rw [if_neg hs]

/-- helper: with all inputs non-empty, verification never raises. -/
theorem verify_ok_of_nonempty (r p s : String) (hc : ¬(r = "" ∨ p = "" ∨ s = "")) :
    ∃ b, verify_webhook_signature r p s = Except.ok b := by
  have hs : s ≠ "" := fun h => hc (Or.inr (Or.inr h))
  unfold verify_webhook_signature
  rw [if_neg hc, compute_webhook_signature_ok s p hs]
  have hrt := b64decode_b64encode (hmacSha1 (strBytes (derive_hmac_key s)) (strBytes p))
    (hmacSha1_lt _ _)
  rcases hbd : b64decode r with _ | rb
  · exact ⟨false, by simp [hbd]⟩
  · by_cases hl : rb.length = (hmacSha1 (strBytes (derive_hmac_key s)) (strBytes p)).length
    · exact ⟨rb == hmacSha1 (strBytes (derive_hmac_key s)) (strBytes p),
        by simp [hbd, hrt, hl]⟩
    · exact ⟨false, by simp [hbd, hrt, hl]⟩

/-- C2: the sign-then-verify round trip succeeds: for every non-empty secret
and payload, verifying the signature computed by `compute_webhook_signature`
against the same payload and secret returns `True`. -/
theorem C2_sign_verify_roundtrip (secret payload : String)
    (hs : secret ≠ "") (hp : payload ≠ "") :
    verify_webhook_signature
      ((compute_webhook_signature secret payload).toOption.getD "")
      payload secret = Except.ok true := by
  rw [compute_webhook_signature_ok secret payload hs]
  show verify_webhook_signature
    (b64encode (hmacSha1 (strBytes (derive_hmac_key secret)) (strBytes payload)))
    payload secret = Except.ok true
  have hlen : (b64encode (hmacSha1 (strBytes (derive_hmac_key secret))
      (strBytes payload))).length = 28 := by
    rw [b64encode_length, hmacSha1_length]
  have hsig : b64encode (hmacSha1 (strBytes (derive_hmac_key secret))
      (strBytes payload)) ≠ "" := by
    intro h0
    rw [h0] at hlen
    simp at hlen
  have hrt := b64decode_b64encode (hmacSha1 (strBytes (derive_hmac_key secret))
    (strBytes payload)) (hmacSha1_lt _ _)
  unfold verify_webhook_signature
  rw [if_neg (by simp [hsig, hp, hs]), compute_webhook_signature_ok secret payload hs]
  simp [hrt]

/-- C2 witness: concrete secret and payload. -/
theorem C2_sign_verify_roundtrip_witness :
    verify_webhook_signature
      ((compute_webhook_signature "testsecret" "payload").toOption.getD "")
      "payload" "testsecret" = Except.ok true :=
  C2_sign_verify_roundtrip "testsecret" "payload" (by decide) (by decide)

/-- The reference signature definition asserted by the SPEC: uppercase-hex
SHA-256 of `secret + ":reference_token"` as the HMAC key text, HMAC-SHA1 over
the UTF-8 payload bytes keyed by the UTF-8 bytes of that text, Base64 with
padding. -/
def referenceSignature (secret payload : String) : String :=
  b64encode (hmacSha1
    (strBytes (String.mk (bytesToHexUpper (sha256 (strBytes (secret ++ ":reference_token"))))))
    (strBytes payload))

/-- C3: for every non-empty secret, `compute_webhook_signature` returns
exactly the spec's reference signature. -/
theorem C3_compute_matches_reference (secret payload : String) (hs : secret ≠ "") :
    compute_webhook_signature secret payload =
      Except.ok (referenceSignature secret payload) := by
  rw [compute_webhook_signature_ok secret payload hs]
  unfold referenceSignature derive_hmac_key
  rfl

/-- C3 witness: concrete secret and payload. -/
theorem C3_compute_matches_reference_witness :
    compute_webhook_signature "testsecret" "payload" =
      Except.ok (referenceSignature "testsecret" "payload") :=
  C3_compute_matches_reference "testsecret" "payload" (by decide)

/-- C8: the computed signature text is always exactly 28 characters. -/
theorem C8_compute_signature_length (secret payload : String) (hs : secret ≠ "") :
    Except.map String.length (compute_webhook_signature secret payload) =
      Except.ok 28 := by
  rw [compute_webhook_signature_ok secret payload hs]
  show Except.ok ((b64encode (hmacSha1 (strBytes (derive_hmac_key secret))
    (strBytes payload))).length) = Except.ok 28
  rw [b64encode_length, hmacSha1_length]

/-- C8 witness: concrete secret and payload. -/
theorem C8_compute_signature_length_witness :
    Except.map String.length (compute_webhook_signature "testsecret" "payload") =
      Except.ok 28 :=
  C8_compute_signature_length "testsecret" "payload" (by decide)

/-- C5: `verify_webhook_signature` raises exactly when one of its three
arguments is empty; `compute_webhook_signature` raises exactly when the
secret is empty; with non-empty inputs a Base64-decode failure of the
received signature, or a decoded length different from the 20 digest bytes,
yields `False` rather than an error. -/
theorem C5_error_conditions :
    (∀ r p s : String,
      (∃ e, verify_webhook_signature r p s = Except.error e) ↔
        (r = "" ∨ p = "" ∨ s = "")) ∧
    (∀ s p : String,
      (∃ e, compute_webhook_signature s p = Except.error e) ↔ s = "") ∧
    (∀ r p s : String, r ≠ "" → p ≠ "" → s ≠ "" → b64decode r = none →
      verify_webhook_signature r p s = Except.ok false) ∧
    (∀ r p s : String, ∀ rb : List Nat, r ≠ "" → p ≠ "" → s ≠ "" →
      b64decode r = some rb → rb.length ≠ 20 →
      verify_webhook_signature r p s = Except.ok false) := by
  refine ⟨?_, ?_, ?_, ?_⟩
  · intro r p s
    constructor
    · rintro ⟨e, he⟩
      by_contra hc
      rcases verify_ok_of_nonempty r p s hc with ⟨b, hb⟩
      rw [hb] at he
      exact Except.noConfusion he
    · intro hc
      refine ⟨"Missing required parameters for webhook signature verification.", ?_⟩
      unfold verify_webhook_signature
      rw [if_pos hc]
  · intro s p
    constructor
    · rintro ⟨e, he⟩
      by_contra hs
      rw [compute_webhook_signature_ok s p hs] at he
      exact Except.noConfusion he
    · intro hs
      refine ⟨"Webhook secret cannot be empty.", ?_⟩
      unfold compute_webhook_signature
      rw [if_pos hs]
  · intro r p s hr hp hs hbd
    unfold verify_webhook_signature
    rw [if_neg (by simp [hr, hp, hs]), compute_webhook_signature_ok s p hs]
    simp [hbd]
  · intro r p s rb hr hp hs hbd hl
    have hrt := b64decode_b64encode (hmacSha1 (strBytes (derive_hmac_key s)) (strBytes p))
      (hmacSha1_lt _ _)
    have hdl := hmacSha1_length (strBytes (derive_hmac_key s)) (strBytes p)
    unfold verify_webhook_signature
    rw [if_neg (by simp [hr, hp, hs]), compute_webhook_signature_ok s p hs]
    simp only [hbd, hrt]
    rw [if_pos (by omega)]

/-- C5 witness: empty received signature raises; empty secret raises in
`compute`; the undecodable 1-character signature `"A"` and the decodable but
3-byte signature `"QUFB"` verify to `False` without raising. -/
theorem C5_error_conditions_witness :
    ((∃ e, verify_webhook_signature "" "a" "b" = Except.error e) ↔
      ("" = "" ∨ "a" = "" ∨ "b" = "")) ∧
    ((∃ e, compute_webhook_signature "" "a" = Except.error e) ↔ "" = "") ∧
    verify_webhook_signature "A" "a" "b" = Except.ok false ∧
    verify_webhook_signature "QUFB" "a" "b" = Except.ok false :=
  ⟨C5_error_conditions.1 "" "a" "b",
   C5_error_conditions.2.1 "" "a",
   C5_error_conditions.2.2.1 "A" "a" "b" (by decide) (by decide) (by decide) (by decide),
   C5_error_conditions.2.2.2 "QUFB" "a" "b" [65, 65, 65]
     (by decide) (by decide) (by decide) (by decide) (by decide)⟩
